import Mathlib

/-!
Verification of the ETL job in `scripts/etl.py` (Crop_Yield repository).

The script reads three CSVs with pandas, cleans each table with
`clean_data`, and writes the cleaned tables into a SQLite database with
replace semantics.  We embed the data model (a pandas `DataFrame` as a
list of column names plus a list of equal-status columns of cells), the
`clean_data` transform, the object-mutation behaviour of the Python code
(pandas in-place column assignment), and the orchestration in `main`
(extract / transform / load with its error paths).
-/

namespace CropETL

/-- A cell of a pandas column: a number, a string, or a missing value
(`NaN` produced by `read_csv` for an empty cell). Numbers are modelled
as integers; the float/int distinction plays no role in the script. -/
inductive Value where
  | num (x : Int)
  | str (s : String)
  | null
deriving DecidableEq, Repr

/-- A pandas `DataFrame`: ordered column names and, in the same order,
the columns themselves (each a list of cells, one per row). -/
structure DataFrame where
  names : List String
  cols : List (List Value)
deriving DecidableEq, Repr

/-! ### Column-name normalization: `df.columns.str.lower().str.replace(' ','_')` -/

/-- ASCII lower-casing of one character, as `str.lower` acts on the
ASCII headers appearing in these CSVs. -/
def lowerChar (c : Char) : Char :=
  if 65 ≤ c.toNat ∧ c.toNat ≤ 90 then Char.ofNat (c.toNat + 32) else c

/-- `Series.str.lower`. -/
def strLower (s : String) : String := ⟨s.data.map lowerChar⟩

/-- One character of `str.replace(' ', '_')`. -/
def underscoreChar (c : Char) : Char := if c = ' ' then '_' else c

/-- `Series.str.replace(' ', '_')`: every space becomes an underscore. -/
def replaceSpaces (s : String) : String := ⟨s.data.map underscoreChar⟩

/-- `df.columns.str.lower().str.replace(' ','_')` applied to one name. -/
def normalizeName (s : String) : String := replaceSpaces (strLower s)

/-! ### Cell-level operations used by `clean_data` -/

/-- Python `str.strip` whitespace class (space, tab, newline, carriage
return, vertical tab, form feed). -/
def isPySpace (c : Char) : Bool :=
  c = ' ' || c = '\t' || c = '\n' || c = '\r' || c = '\x0b' || c = '\x0c'

/-- Python `str.strip()`: drop leading and trailing whitespace. -/
def pyStrip (s : String) : String :=
  ⟨List.rdropWhile isPySpace (List.dropWhile isPySpace s.data)⟩

/-- Python `str(x)` as applied elementwise by `Series.astype(str)`:
a missing value (`NaN`) stringifies to the literal string `"nan"`. -/
def pyStrOfValue (v : Value) : String :=
  match v with
  | .num x => toString x
  | .str s => s
  | .null => "nan"

/-- `Series.astype(str)`: every cell (including `NaN`) becomes a string. -/
def astypeStr (col : List Value) : List Value :=
  col.map (fun v => .str (pyStrOfValue v))

/-- `Series.str.strip()`: strip string cells, leave the rest alone. -/
def stripCol (col : List Value) : List Value :=
  col.map (fun v => match v with | .str s => .str (pyStrip s) | v => v)

/-- `Series.fillna(fill)`: replace missing cells by `fill`. -/
def fillna (fill : Value) (col : List Value) : List Value :=
  col.map (fun v => match v with | .null => fill | v => v)

/-- `pd.api.types.is_numeric_dtype(df[col])`: `read_csv` infers a numeric
dtype exactly when no cell of the column holds a string (missing cells
become `NaN`, which lives in a numeric float column). -/
def isNumericDtype (col : List Value) : Bool :=
  col.all (fun v => match v with | .str _ => false | _ => true)

/-- The body of the per-column loop of `clean_data`:
numeric columns get `fillna(0)`; other columns get
`astype(str).str.strip()` and then `fillna('Unknown')`, in that order. -/
def cleanColumn (col : List Value) : List Value :=
  if isNumericDtype col then fillna (.num 0) col
  else fillna (.str "Unknown") (stripCol (astypeStr col))

/-- The action of `clean_data` on one cell, read off the per-column
branch of the source: `numeric` is the column's inferred dtype; a
numeric column's cell goes through `fillna(0)`, any other column's cell
through `astype(str).str.strip()` (after which `fillna('Unknown')` finds
nothing to fill).  `cleanColumn` is exactly the in-order cellwise map of
this function, which is what makes the transform positionwise. -/
def cleanCell (numeric : Bool) (v : Value) : Value :=
  if numeric then match v with | .null => .num 0 | v => v
  else .str (pyStrip (pyStrOfValue v))

/-- `clean_data` as a value-level function: normalize every column name,
then clean every column. (The Python function performs these updates in
place on its argument; the heap model below captures that aspect.) -/
def clean_data (df : DataFrame) : DataFrame :=
  ⟨df.names.map normalizeName, df.cols.map cleanColumn⟩

/-! ### Object identity: the Python `clean_data` updates its argument in place

`df.columns = ...` and `df[col] = ...` mutate the DataFrame object the
caller passed; the function then returns that same object.  We model the
Python object store as a list of DataFrames indexed by object identity. -/

/-- The Python heap fragment relevant to the script: DataFrame objects
addressed by allocation index. -/
structure PyHeap where
  objs : List DataFrame
deriving DecidableEq, Repr

/-- Dereference object `i` (a dangling index yields an empty frame;
the script never produces one). -/
def heapGet (h : PyHeap) (i : Nat) : DataFrame := h.objs.getD i ⟨[], []⟩

/-- Overwrite object `i` in place. -/
def heapSet (h : PyHeap) (i : Nat) (df : DataFrame) : PyHeap :=
  ⟨h.objs.set i df⟩

/-- `df.copy()`: allocate a fresh object holding the same value and
return its address. -/
def pyCopy (h : PyHeap) (i : Nat) : PyHeap × Nat :=
  (⟨h.objs ++ [heapGet h i]⟩, h.objs.length)

/-- A call `clean_data(obj_i)`: the column rename and the per-column
assignments update object `i` in place, and the function returns the very
same object. -/
def clean_data_call (h : PyHeap) (i : Nat) : PyHeap × Nat :=
  (heapSet h i (clean_data (heapGet h i)), i)

/-- The pattern `clean_data(df.copy())` used for each table in `main`:
copy object `i`, then run `clean_data` on the copy; returns the heap and
the address of the cleaned copy. -/
def transformStep (h : PyHeap) (i : Nat) : PyHeap × Nat :=
  let hj := pyCopy h i
  clean_data_call hj.1 hj.2

/-! ### The orchestrator `main`: extract, transform, load -/

/-- Hard-coded input path of the crop production CSV (relative to the
working directory). -/
def crop_data_path : String := "data/csv data/raw/area_production_yield_data.csv"

/-- Hard-coded input path of the normal rainfall CSV. -/
def normal_rainfall_path : String := "data/csv data/raw/normal_rainfall_data.csv"

/-- Hard-coded input path of the monthly rainfall CSV. -/
def monthly_rainfall_path : String := "data/csv data/raw/monthly_rainfall_data.csv"

/-- The filesystem as `main` sees it: for each of the three input paths,
either the parsed table (`some df`) or absence of the file (`none`). -/
structure Env where
  crop : Option DataFrame
  normal : Option DataFrame
  monthly : Option DataFrame
deriving DecidableEq, Repr

/-- The destination SQLite database: named tables. -/
structure DB where
  tables : List (String × DataFrame)
deriving DecidableEq, Repr

/-- `to_sql(name, conn, if_exists='replace')`: drop any table with this
name and write the frame as the new table contents. -/
def writeTable (name : String) (df : DataFrame) (db : DB) : DB :=
  ⟨db.tables.filter (fun t => t.1 ≠ name) ++ [(name, df)]⟩

/-- Contents of the named table, when present. -/
def lookupTable (name : String) (db : DB) : Option DataFrame :=
  (db.tables.find? (fun t => t.1 = name)).map (fun t => t.2)

/-- How a run of `main` ends: a `FileNotFoundError` diagnostic naming the
missing path, a load-phase diagnostic naming the table whose write
raised, or completion. -/
inductive RunResult where
  | missingFile (path : String)
  | writeError (table : String)
  | ok
deriving DecidableEq, Repr

/-- `main`.  `store` is the destination database file before the run
(`none`: the file does not exist; `sqlite3.connect` creates it empty).
`failAt k` says whether the `k`-th `to_sql` call raises.  Returns the
database file after the run and how the run ended.

Extract: `pd.read_csv` on the three paths in order; the first missing
file raises `FileNotFoundError`, `main` prints the diagnostic and
returns before any transform or load.  Transform: `clean_data` on a copy
of each frame.  Load: the three `to_sql` calls in order inside
`with sqlite3.connect(db_path)`; pandas commits each table's write on
success, so a raise during write `k` leaves writes `0..k-1` in place,
skips the rest, and `main` prints the diagnostic and returns. -/
def runMain (env : Env) (store : Option DB) (failAt : Nat → Bool) :
    Option DB × RunResult :=
  match env.crop with
  | none => (store, .missingFile crop_data_path)
  | some cropDf =>
    match env.normal with
    | none => (store, .missingFile normal_rainfall_path)
    | some normalDf =>
      match env.monthly with
      | none => (store, .missingFile monthly_rainfall_path)
      | some monthlyDf =>
        let cropClean := clean_data cropDf
        let normalClean := clean_data normalDf
        let monthlyClean := clean_data monthlyDf
        let db0 := store.getD ⟨[]⟩
        if failAt 0 then (some db0, .writeError "crop_production")
        else
          let db1 := writeTable "crop_production" cropClean db0
          if failAt 1 then (some db1, .writeError "normal_rainfall")
          else
            let db2 := writeTable "normal_rainfall" normalClean db1
            if failAt 2 then (some db2, .writeError "monthly_rainfall")
            else
              (some (writeTable "monthly_rainfall" monthlyClean db2), .ok)

/-- A run with no write failures. -/
def noFail : Nat → Bool := fun _ => false

/-! ### Connection events of the load step

`with sqlite3.connect(db_path) as conn:` uses the sqlite3 connection as
a context manager.  Per the sqlite3 documentation, that context manager
commits the pending transaction on normal exit and rolls it back on an
exception; it does **not** close the connection, and the script contains
no `conn.close()` call. -/

/-- Observable events on the destination store connection during the
load step. -/
inductive Ev where
  | connect
  | write (table : String)
  | commitTx
  | rollbackTx
  | closeConn
deriving DecidableEq, Repr

/-- The sequence of connection events of the load step when `failAt k`
says whether the `k`-th `to_sql` call raises. -/
def loadEvents (failAt : Nat → Bool) : List Ev :=
  Ev.connect ::
    (if failAt 0 then [Ev.rollbackTx]
     else Ev.write "crop_production" ::
       (if failAt 1 then [Ev.rollbackTx]
        else Ev.write "normal_rainfall" ::
          (if failAt 2 then [Ev.rollbackTx]
           else [Ev.write "monthly_rainfall", Ev.commitTx])))

/-! ### Helper lemmas -/

theorem cleanColumn_nil : cleanColumn [] = [] := rfl

theorem getD_map_cleanColumn (l : List (List Value)) (i : Nat) :
    (l.map cleanColumn).getD i [] = cleanColumn (l.getD i []) := by
  simp only [List.getD_eq_getElem?_getD, List.getElem?_map]
  cases l[i]? <;> simp [cleanColumn_nil]

theorem length_cleanColumn (col : List Value) :
    (cleanColumn col).length = col.length := by
  unfold cleanColumn
  split <;> simp [fillna, stripCol, astypeStr]

theorem cleanColumn_of_numeric (col : List Value) (h : isNumericDtype col = true) :
    cleanColumn col = fillna (Value.num 0) col := by
  unfold cleanColumn
  rw [if_pos h]

theorem cleanColumn_of_text (col : List Value) (h : isNumericDtype col = false) :
    cleanColumn col = fillna (Value.str "Unknown") (stripCol (astypeStr col)) := by
  unfold cleanColumn
  rw [if_neg (by simp [h])]

/-! ### C1, C3, C4, C10: behaviour of `clean_data` on one table -/

/-- C1: the claim that after `clean_data` a missing entry of a text column
equals `"Unknown"` is false on the code: `fillna('Unknown')` runs after
`astype(str)` has already turned the missing value into the string
`"nan"`, so a text column holding `"  Wheat "` and a missing cell cleans
to `"Wheat"` and `"nan"`, and `"nan"` is not `"Unknown"`. -/
theorem text_missing_becomes_nan :
    clean_data ⟨["Crop"], [[Value.str "  Wheat ", Value.null]]⟩
      = ⟨["crop"], [[Value.str "Wheat", Value.str "nan"]]⟩
  ∧ (Value.str "nan" : Value) ≠ Value.str "Unknown" := by
  decide

/-- C3: in a column classified as numeric, `clean_data` replaces exactly
the missing entries by `0`, leaves all other entries unchanged, and the
cleaned column contains no missing entry at all. -/
theorem clean_data_numeric_fill (df : DataFrame) (i : Nat)
    (h : isNumericDtype (df.cols.getD i []) = true) :
    (clean_data df).cols.getD i []
      = (df.cols.getD i []).map
          (fun v => match v with | Value.null => Value.num 0 | v => v)
  ∧ ∀ v ∈ (clean_data df).cols.getD i [], v ≠ Value.null := by
  have hcol : (clean_data df).cols.getD i []
      = fillna (Value.num 0) (df.cols.getD i []) := by
    show (df.cols.map cleanColumn).getD i [] = _
    rw [getD_map_cleanColumn, cleanColumn_of_numeric _ h]
  refine ⟨hcol, ?_⟩
  intro v hv
  rw [hcol] at hv
  unfold fillna at hv
  obtain ⟨u, _, hu⟩ := List.mem_map.mp hv
  cases u <;> rw [← hu] <;> simp

/-- C3 witness: the numeric column `[3, NaN]` is classified numeric and
cleans to `[3, 0]` with no missing entry left. -/
theorem clean_data_numeric_fill_witness :
    isNumericDtype ((⟨["Area"], [[Value.num 3, Value.null]]⟩ : DataFrame).cols.getD 0 []) = true
  ∧ ((clean_data ⟨["Area"], [[Value.num 3, Value.null]]⟩).cols.getD 0 []
      = ((⟨["Area"], [[Value.num 3, Value.null]]⟩ : DataFrame).cols.getD 0 []).map
          (fun v => match v with | Value.null => Value.num 0 | v => v)
    ∧ ∀ v ∈ (clean_data ⟨["Area"], [[Value.num 3, Value.null]]⟩).cols.getD 0 [],
        v ≠ Value.null) :=
  ⟨by decide, clean_data_numeric_fill ⟨["Area"], [[Value.num 3, Value.null]]⟩ 0 (by decide)⟩

/-- C4: `clean_data` renames every column to its lower-cased,
space-to-underscore form; in particular `"District Name"` becomes
`district_name`. -/
theorem clean_data_normalizes_names (df : DataFrame) :
    (clean_data df).names = df.names.map normalizeName
  ∧ normalizeName "District Name" = "district_name" :=
  ⟨rfl, by decide⟩

theorem getD_map_normalizeName (l : List String) (i : Nat) :
    (l.map normalizeName).getD i "" = normalizeName (l.getD i "") := by
  simp only [List.getD_eq_getElem?_getD, List.getElem?_map]
  cases l[i]? <;> rfl

theorem cleanColumn_eq_map_cell (col : List Value) :
    cleanColumn col = col.map (cleanCell (isNumericDtype col)) := by
  cases h : isNumericDtype col with
  | true =>
    rw [cleanColumn_of_numeric _ h]
    unfold fillna
    apply List.map_congr_left
    intro v _
    cases v <;> rfl
  | false =>
    rw [cleanColumn_of_text _ h]
    unfold fillna stripCol astypeStr
    simp only [List.map_map]
    apply List.map_congr_left
    intro v _
    cases v <;> rfl

/-- C10: `clean_data` preserves the shape of the table, keeping rows and
columns in their order: the number of names and columns and every column
length are unchanged, the name at position `i` of the output is the
normalization of the name at position `i` of the input, and the column
at position `i` of the output is the in-order cellwise image of the
column at position `i` of the input — the cell at row `j` of the output
column comes from the cell at row `j` of the same input column, so only
column names and cell contents change. -/
theorem clean_data_preserves_shape (df : DataFrame) :
    (clean_data df).names.length = df.names.length
  ∧ (clean_data df).cols.length = df.cols.length
  ∧ (∀ i : Nat, (clean_data df).names.getD i ""
      = normalizeName (df.names.getD i ""))
  ∧ (∀ i : Nat, (clean_data df).cols.getD i []
      = (df.cols.getD i []).map (cleanCell (isNumericDtype (df.cols.getD i []))))
  ∧ ∀ i : Nat, ((clean_data df).cols.getD i []).length = (df.cols.getD i []).length := by
  refine ⟨by simp [clean_data], by simp [clean_data], fun i => ?_, fun i => ?_, fun i => ?_⟩
  · show ((df.names.map normalizeName).getD i "") = _
    rw [getD_map_normalizeName]
  · show ((df.cols.map cleanColumn).getD i []) = _
    rw [getD_map_cleanColumn, cleanColumn_eq_map_cell]
  · show ((df.cols.map cleanColumn).getD i []).length = _
    rw [getD_map_cleanColumn, length_cleanColumn]

/-! ### Lemmas about the replace-semantics table writes -/

theorem lookupTable_writeTable_self (name : String) (df : DataFrame) (db : DB) :
    lookupTable name (writeTable name df db) = some df := by
  unfold lookupTable writeTable
  rw [List.find?_append]
  have hnone : List.find? (fun t => decide (t.1 = name))
      (List.filter (fun t => decide ¬t.1 = name) db.tables) = none := by
    rw [List.find?_eq_none]
    intro x hx
    have hmem := List.of_mem_filter hx
    simp only [decide_not, Bool.not_eq_eq_eq_not, Bool.not_true, decide_eq_false_iff_not] at hmem
    simp [hmem]
  rw [hnone]
  simp

theorem lookupTable_writeTable_ne (name other : String) (df : DataFrame) (db : DB)
    (h : other ≠ name) :
    lookupTable other (writeTable name df db) = lookupTable other db := by
  unfold lookupTable writeTable
  rw [List.find?_append]
  have key : ∀ l : List (String × DataFrame),
      List.find? (fun t => decide (t.1 = other))
          (List.filter (fun t => decide ¬t.1 = name) l)
        = List.find? (fun t => decide (t.1 = other)) l := by
    intro l
    induction l with
    | nil => rfl
    | cons a t ih =>
      by_cases ha : a.1 = other
      · have hne : a.1 ≠ name := by rw [ha]; exact h
        rw [List.filter_cons_of_pos (by simp [hne]),
          List.find?_cons_of_pos _ (by simp [ha]),
          List.find?_cons_of_pos _ (by simp [ha])]
      · by_cases hn : a.1 = name
        · rw [List.filter_cons_of_neg (by simp [hn]),
            List.find?_cons_of_neg _ (by simp [ha]), ih]
        · rw [List.filter_cons_of_pos (by simp [hn]),
            List.find?_cons_of_neg _ (by simp [ha]),
            List.find?_cons_of_neg _ (by simp [ha]), ih]
  rw [key]
  have hone : List.find? (fun t => decide (t.1 = other)) [(name, df)] = none := by
    rw [List.find?_cons_of_neg _ (by simp; exact fun hc => h hc.symm)]
    rfl
  rw [hone]
  simp

/-! ### C2: in-place mutation of the argument of `clean_data` -/

/-- A one-object heap holding a table with an unnormalized column name
and a cell with surrounding whitespace. -/
def dirtyHeap : PyHeap :=
  ⟨[⟨["District Name"], [[Value.str "  Wheat ", Value.null]]⟩]⟩

/-- C2 counterexample: `clean_data` does mutate the object passed to it
(the column rename and the per-column assignments happen in place), so
the table object passed by the caller is changed by the call. -/
theorem clean_data_call_mutates_argument :
    heapGet (clean_data_call dirtyHeap 0).1 0 ≠ heapGet dirtyHeap 0 := by
  decide

/-- C2 amended: `clean_data` returns the very object it was handed
(which it has updated in place); `main` protects the loaded tables by
calling `clean_data(df.copy())`, so after that pattern the caller's
original object is unchanged and the returned fresh object holds the
cleaned table. -/
theorem clean_data_copy_pattern (h : PyHeap) (i : Nat) (hi : i < h.objs.length) :
    (clean_data_call h i).2 = i
  ∧ heapGet (transformStep h i).1 i = heapGet h i
  ∧ heapGet (transformStep h i).1 (transformStep h i).2 = clean_data (heapGet h i) := by
  refine ⟨rfl, ?_, ?_⟩
  · show (((h.objs ++ [heapGet h i]).set h.objs.length _).getD i _) = _
    rw [List.getD_eq_getElem?_getD, List.getElem?_set_ne (Nat.ne_of_gt hi),
      List.getElem?_append_left hi]
    rw [heapGet, List.getD_eq_getElem?_getD]
  · show (((h.objs ++ [heapGet h i]).set h.objs.length
        (clean_data (heapGet ⟨h.objs ++ [heapGet h i]⟩ h.objs.length))).getD
          h.objs.length _) = _
    have hlen : h.objs.length < (h.objs ++ [heapGet h i]).length := by
      simp
    have hmid : heapGet ⟨h.objs ++ [heapGet h i]⟩ h.objs.length = heapGet h i := by
      show (h.objs ++ [heapGet h i]).getD h.objs.length _ = _
      rw [List.getD_eq_getElem?_getD, List.getElem?_concat_length]
      rfl
    rw [List.getD_eq_getElem?_getD, List.getElem?_set_self hlen, hmid]
    rfl

/-- C2 amended witness: the copy-then-clean pattern on the concrete dirty
heap leaves object 0 untouched and produces the cleaned table in the
fresh object. -/
theorem clean_data_copy_pattern_witness :
    0 < dirtyHeap.objs.length
  ∧ ((clean_data_call dirtyHeap 0).2 = 0
    ∧ heapGet (transformStep dirtyHeap 0).1 0 = heapGet dirtyHeap 0
    ∧ heapGet (transformStep dirtyHeap 0).1 (transformStep dirtyHeap 0).2
        = clean_data (heapGet dirtyHeap 0)) :=
  ⟨by decide, clean_data_copy_pattern dirtyHeap 0 (by decide)⟩

/-! ### C6, C7, C8: the orchestrator -/

/-- C6: when any of the three input files is missing, the job aborts
before the load phase: the destination store is exactly what it was
(in particular it is not created when it did not exist), and the
diagnostic names the path of a missing file. -/
theorem missing_input_aborts (env : Env) (store : Option DB) (failAt : Nat → Bool)
    (h : env.crop = none ∨ env.normal = none ∨ env.monthly = none) :
    (runMain env store failAt).1 = store
  ∧ ∃ p, (runMain env store failAt).2 = RunResult.missingFile p
      ∧ ((env.crop = none ∧ p = crop_data_path)
        ∨ (env.normal = none ∧ p = normal_rainfall_path)
        ∨ (env.monthly = none ∧ p = monthly_rainfall_path)) := by
  obtain ⟨c, n, m⟩ := env
  cases c with
  | none => exact ⟨rfl, crop_data_path, rfl, Or.inl ⟨rfl, rfl⟩⟩
  | some cdf =>
    cases n with
    | none => exact ⟨rfl, normal_rainfall_path, rfl, Or.inr (Or.inl ⟨rfl, rfl⟩)⟩
    | some ndf =>
      cases m with
      | none => exact ⟨rfl, monthly_rainfall_path, rfl, Or.inr (Or.inr ⟨rfl, rfl⟩)⟩
      | some mdf =>
        rcases h with hc | hn | hm
        · exact absurd hc (by simp)
        · exact absurd hn (by simp)
        · exact absurd hm (by simp)

/-- C6 witness: with all three files absent the run returns the store
untouched and reports the crop CSV path as missing. -/
theorem missing_input_aborts_witness :
    ((⟨none, none, none⟩ : Env).crop = none
      ∨ (⟨none, none, none⟩ : Env).normal = none
      ∨ (⟨none, none, none⟩ : Env).monthly = none)
  ∧ ((runMain ⟨none, none, none⟩ none noFail).1 = none
    ∧ ∃ p, (runMain ⟨none, none, none⟩ none noFail).2 = RunResult.missingFile p
        ∧ (((⟨none, none, none⟩ : Env).crop = none ∧ p = crop_data_path)
          ∨ ((⟨none, none, none⟩ : Env).normal = none ∧ p = normal_rainfall_path)
          ∨ ((⟨none, none, none⟩ : Env).monthly = none ∧ p = monthly_rainfall_path))) :=
  ⟨Or.inl rfl, missing_input_aborts ⟨none, none, none⟩ none noFail (Or.inl rfl)⟩

/-- C7: whichever of the three `to_sql` calls is the first to raise, the
run stops there and surfaces a write diagnostic naming that table; the
writes already completed before the failure stay in place (no rollback)
and the tables of the writes not yet reached are untouched.  The three
conjuncts cover a first failure at the first, second and third write. -/
theorem write_failure_aborts (c n m : DataFrame) (db : DB) (failAt : Nat → Bool) :
    (failAt 0 = true →
      runMain ⟨some c, some n, some m⟩ (some db) failAt
        = (some db, RunResult.writeError "crop_production"))
  ∧ (failAt 0 = false → failAt 1 = true →
      runMain ⟨some c, some n, some m⟩ (some db) failAt
        = (some (writeTable "crop_production" (clean_data c) db),
           RunResult.writeError "normal_rainfall")
    ∧ lookupTable "crop_production" (writeTable "crop_production" (clean_data c) db)
        = some (clean_data c)
    ∧ lookupTable "normal_rainfall" (writeTable "crop_production" (clean_data c) db)
        = lookupTable "normal_rainfall" db
    ∧ lookupTable "monthly_rainfall" (writeTable "crop_production" (clean_data c) db)
        = lookupTable "monthly_rainfall" db)
  ∧ (failAt 0 = false → failAt 1 = false → failAt 2 = true →
      runMain ⟨some c, some n, some m⟩ (some db) failAt
        = (some (writeTable "normal_rainfall" (clean_data n)
            (writeTable "crop_production" (clean_data c) db)),
           RunResult.writeError "monthly_rainfall")
    ∧ lookupTable "crop_production"
          (writeTable "normal_rainfall" (clean_data n)
            (writeTable "crop_production" (clean_data c) db))
        = some (clean_data c)
    ∧ lookupTable "normal_rainfall"
          (writeTable "normal_rainfall" (clean_data n)
            (writeTable "crop_production" (clean_data c) db))
        = some (clean_data n)
    ∧ lookupTable "monthly_rainfall"
          (writeTable "normal_rainfall" (clean_data n)
            (writeTable "crop_production" (clean_data c) db))
        = lookupTable "monthly_rainfall" db) := by
  refine ⟨fun h0 => ?_, fun h0 h1 => ?_, fun h0 h1 h2 => ?_⟩
  · simp [runMain, h0]
  · refine ⟨by simp [runMain, h0, h1], lookupTable_writeTable_self _ _ _, ?_, ?_⟩
    · exact lookupTable_writeTable_ne _ _ _ _ (by decide)
    · exact lookupTable_writeTable_ne _ _ _ _ (by decide)
  · refine ⟨by simp [runMain, h0, h1, h2], ?_, lookupTable_writeTable_self _ _ _, ?_⟩
    · rw [lookupTable_writeTable_ne _ _ _ _ (by decide)]
      exact lookupTable_writeTable_self _ _ _
    · rw [lookupTable_writeTable_ne _ _ _ _ (by decide)]
      exact lookupTable_writeTable_ne _ _ _ _ (by decide)

/-- C7 witness: each of the three failure positions exercised on a
concrete store and concrete tables, discharging every hypothesis of the
corresponding conjunct. -/
theorem write_failure_aborts_witness :
    ((fun _ : Nat => true) 0 = true
    ∧ runMain ⟨some ⟨[], []⟩, some ⟨[], []⟩, some ⟨[], []⟩⟩ (some ⟨[]⟩) (fun _ => true)
        = (some ⟨[]⟩, RunResult.writeError "crop_production"))
  ∧ ((fun k : Nat => decide (k = 1)) 0 = false
    ∧ (fun k : Nat => decide (k = 1)) 1 = true
    ∧ (runMain ⟨some ⟨[], []⟩, some ⟨[], []⟩, some ⟨[], []⟩⟩ (some ⟨[]⟩)
          (fun k => decide (k = 1))).2 = RunResult.writeError "normal_rainfall")
  ∧ ((fun k : Nat => decide (2 ≤ k)) 0 = false
    ∧ (fun k : Nat => decide (2 ≤ k)) 1 = false
    ∧ (fun k : Nat => decide (2 ≤ k)) 2 = true
    ∧ (runMain ⟨some ⟨[], []⟩, some ⟨[], []⟩, some ⟨[], []⟩⟩ (some ⟨[]⟩)
          (fun k => decide (2 ≤ k))).2 = RunResult.writeError "monthly_rainfall") :=
  ⟨⟨rfl, (write_failure_aborts ⟨[], []⟩ ⟨[], []⟩ ⟨[], []⟩ ⟨[]⟩ (fun _ => true)).1 rfl⟩,
   ⟨rfl, rfl, by
      rw [((write_failure_aborts ⟨[], []⟩ ⟨[], []⟩ ⟨[], []⟩ ⟨[]⟩
        (fun k => decide (k = 1))).2.1 rfl rfl).1]⟩,
   ⟨rfl, rfl, rfl, by
      rw [((write_failure_aborts ⟨[], []⟩ ⟨[], []⟩ ⟨[], []⟩ ⟨[]⟩
        (fun k => decide (2 ≤ k))).2.2 rfl rfl rfl).1]⟩⟩

/-- C8: running the job twice with the same inputs and no write failures
succeeds both times, and the contents of the three tables after the
second run are identical to their contents after the first run: every
write fully replaces the prior table. -/
theorem run_twice_same_tables (c n m : DataFrame) (store : Option DB) :
    (runMain ⟨some c, some n, some m⟩ store noFail).2 = RunResult.ok
  ∧ (runMain ⟨some c, some n, some m⟩
      (runMain ⟨some c, some n, some m⟩ store noFail).1 noFail).2 = RunResult.ok
  ∧ ∀ name : String,
      (name = "crop_production" ∨ name = "normal_rainfall" ∨ name = "monthly_rainfall") →
      lookupTable name
          ((runMain ⟨some c, some n, some m⟩
            (runMain ⟨some c, some n, some m⟩ store noFail).1 noFail).1.getD ⟨[]⟩)
        = lookupTable name
            ((runMain ⟨some c, some n, some m⟩ store noFail).1.getD ⟨[]⟩) := by
  refine ⟨rfl, rfl, ?_⟩
  have hfinal : ∀ db : DB, ∀ name : String,
      (name = "crop_production" ∨ name = "normal_rainfall" ∨ name = "monthly_rainfall") →
      lookupTable name
          (writeTable "monthly_rainfall" (clean_data m)
            (writeTable "normal_rainfall" (clean_data n)
              (writeTable "crop_production" (clean_data c) db)))
        = if name = "monthly_rainfall" then some (clean_data m)
          else if name = "normal_rainfall" then some (clean_data n)
          else some (clean_data c) := by
    intro db name hname
    rcases hname with h1 | h2 | h3
    · subst h1
      rw [lookupTable_writeTable_ne _ _ _ _ (by decide),
        lookupTable_writeTable_ne _ _ _ _ (by decide),
        lookupTable_writeTable_self]
      rfl
    · subst h2
      rw [lookupTable_writeTable_ne _ _ _ _ (by decide),
        lookupTable_writeTable_self]
      rfl
    · subst h3
      rw [lookupTable_writeTable_self]
      rfl
  intro name hname
  show lookupTable name
      (writeTable "monthly_rainfall" (clean_data m)
        (writeTable "normal_rainfall" (clean_data n)
          (writeTable "crop_production" (clean_data c) _)))
    = lookupTable name
        (writeTable "monthly_rainfall" (clean_data m)
          (writeTable "normal_rainfall" (clean_data n)
            (writeTable "crop_production" (clean_data c) _)))
  rw [hfinal _ name hname, hfinal _ name hname]

/-- C8 witness: with empty input tables and an absent destination store,
both runs report success and each of the three tables agrees between the
two runs. -/
theorem run_twice_same_tables_witness :
    ("crop_production" = "crop_production"
      ∨ ("crop_production" : String) = "normal_rainfall"
      ∨ ("crop_production" : String) = "monthly_rainfall")
  ∧ lookupTable "crop_production"
        ((runMain ⟨some ⟨[], []⟩, some ⟨[], []⟩, some ⟨[], []⟩⟩
          (runMain ⟨some ⟨[], []⟩, some ⟨[], []⟩, some ⟨[], []⟩⟩ none noFail).1
          noFail).1.getD ⟨[]⟩)
      = lookupTable "crop_production"
          ((runMain ⟨some ⟨[], []⟩, some ⟨[], []⟩, some ⟨[], []⟩⟩ none noFail).1.getD ⟨[]⟩) :=
  ⟨Or.inl rfl,
    (run_twice_same_tables ⟨[], []⟩ ⟨[], []⟩ ⟨[], []⟩ none).2.2
      "crop_production" (Or.inl rfl)⟩

/-! ### C9: the destination store connection is never closed -/

/-- C9: on no execution path of the load step does the script close the
destination store connection: `with sqlite3.connect(...)` commits the
pending transaction on normal exit and rolls it back on an exception,
but does not release the connection, and no `close()` call appears in
the script. -/
theorem conn_never_closed (failAt : Nat → Bool) :
    (loadEvents failAt).contains Ev.closeConn = false := by
  unfold loadEvents
  cases h0 : failAt 0 <;> cases h1 : failAt 1 <;> cases h2 : failAt 2 <;>
    simp [h0, h1, h2, List.contains]

/-! ### C5: idempotence of `clean_data` -/

theorem toNat_ofNat_of_valid (n : Nat) (h : n.isValidChar) :
    (Char.ofNat n).toNat = n := by
  simp only [Char.ofNat, Char.ofNatAux, Char.toNat, h, dif_pos]
  rfl

theorem toNat_lowerChar (c : Char) :
    (lowerChar c).toNat
      = if 65 ≤ c.toNat ∧ c.toNat ≤ 90 then c.toNat + 32 else c.toNat := by
  unfold lowerChar
  split
  · next hup => exact toNat_ofNat_of_valid _ (Or.inl (by omega))
  · rfl

theorem lowerChar_fixed (c : Char) (h : ¬(65 ≤ c.toNat ∧ c.toNat ≤ 90)) :
    lowerChar c = c := by
  unfold lowerChar
  rw [if_neg h]

theorem lowerChar_idem (c : Char) : lowerChar (lowerChar c) = lowerChar c := by
  apply lowerChar_fixed
  rw [toNat_lowerChar]
  by_cases hA : 65 ≤ c.toNat ∧ c.toNat ≤ 90
  · rw [if_pos hA]; omega
  · rw [if_neg hA]; exact hA

theorem underscoreChar_ne_space (x : Char) : underscoreChar x ≠ ' ' := by
  unfold underscoreChar
  split
  · decide
  · assumption

theorem underscoreChar_fixed (x : Char) (h : x ≠ ' ') : underscoreChar x = x := by
  unfold underscoreChar
  rw [if_neg h]

theorem normChar_idem (c : Char) :
    underscoreChar (lowerChar (underscoreChar (lowerChar c)))
      = underscoreChar (lowerChar c) := by
  by_cases h : lowerChar c = ' '
  · rw [h]; decide
  · rw [underscoreChar_fixed _ h, lowerChar_idem]
    exact underscoreChar_fixed _ h

theorem normalizeName_idem (s : String) :
    normalizeName (normalizeName s) = normalizeName s := by
  show (⟨(((s.data.map lowerChar).map underscoreChar).map lowerChar).map underscoreChar⟩ : String)
    = ⟨(s.data.map lowerChar).map underscoreChar⟩
  apply congrArg String.mk
  simp only [List.map_map]
  apply List.map_congr_left
  intro a _
  show underscoreChar (lowerChar (underscoreChar (lowerChar a))) = underscoreChar (lowerChar a)
  exact normChar_idem a

theorem dropWhile_fixed_of_fixed {α : Type} (p : α → Bool) (l : List α)
    (h : List.dropWhile p l = l) :
    List.dropWhile p (List.rdropWhile p l) = List.rdropWhile p l := by
  rw [List.dropWhile_eq_self_iff] at h ⊢
  intro hl
  have hpre : List.rdropWhile p l <+: l := List.rdropWhile_prefix p l
  have hlen : 0 < l.length := lt_of_lt_of_le hl hpre.length_le
  have hget : (List.rdropWhile p l).get ⟨0, hl⟩ = l.get ⟨0, hlen⟩ := by
    simp only [List.get_eq_getElem]
    exact hpre.getElem hl
  rw [hget]
  exact h hlen

theorem pyStrip_idem (s : String) : pyStrip (pyStrip s) = pyStrip s := by
  show (⟨List.rdropWhile isPySpace (List.dropWhile isPySpace
      (List.rdropWhile isPySpace (List.dropWhile isPySpace s.data)))⟩ : String)
    = ⟨List.rdropWhile isPySpace (List.dropWhile isPySpace s.data)⟩
  apply congrArg String.mk
  rw [dropWhile_fixed_of_fixed isPySpace _
      (List.dropWhile_idempotent isPySpace s.data),
    List.rdropWhile_idempotent]

theorem isNumericDtype_fillna_num (col : List Value)
    (h : isNumericDtype col = true) :
    isNumericDtype (fillna (Value.num 0) col) = true := by
  unfold isNumericDtype at h ⊢
  unfold fillna
  rw [List.all_map, List.all_eq_true]
  rw [List.all_eq_true] at h
  intro v hv
  have := h v hv
  cases v <;> simp_all [Function.comp]

theorem isNumericDtype_clean_text (col : List Value)
    (h : isNumericDtype col = false) :
    isNumericDtype (fillna (Value.str "Unknown") (stripCol (astypeStr col))) = false := by
  cases col with
  | nil => simp [isNumericDtype] at h
  | cons a t => rfl

theorem cleanColumn_idem (col : List Value) :
    cleanColumn (cleanColumn col) = cleanColumn col := by
  cases h : isNumericDtype col with
  | true =>
    rw [cleanColumn_of_numeric _ h,
      cleanColumn_of_numeric _ (isNumericDtype_fillna_num _ h)]
    unfold fillna
    rw [List.map_map]
    apply List.map_congr_left
    intro v _
    cases v <;> rfl
  | false =>
    rw [cleanColumn_of_text _ h,
      cleanColumn_of_text _ (isNumericDtype_clean_text _ h)]
    unfold fillna stripCol astypeStr
    simp only [List.map_map]
    apply List.map_congr_left
    intro v _
    simp [Function.comp, pyStrOfValue, pyStrip_idem]

/-- C5: `clean_data` is idempotent: cleaning an already-cleaned table is
a no-op, both on the normalized column names and on the filled and
stripped columns. -/
theorem clean_data_idempotent (df : DataFrame) :
    clean_data (clean_data df) = clean_data df := by
  have h1 : (df.names.map normalizeName).map normalizeName
      = df.names.map normalizeName := by
    rw [List.map_map]
    apply List.map_congr_left
    intro s _
    exact normalizeName_idem s
  have h2 : (df.cols.map cleanColumn).map cleanColumn
      = df.cols.map cleanColumn := by
    rw [List.map_map]
    apply List.map_congr_left
    intro c _
    exact cleanColumn_idem c
  show DataFrame.mk ((df.names.map normalizeName).map normalizeName)
      ((df.cols.map cleanColumn).map cleanColumn)
    = DataFrame.mk (df.names.map normalizeName) (df.cols.map cleanColumn)
  rw [h1, h2]

end CropETL
